import Mathlib

/-!
Verification of `torchgeo/models/seq2seq.py` (Seq2Seq encoder-decoder model).

The embedding is a shallow one over rank-3 tensors with rational entries.
The recurrent primitives (`nn.RNN`, `nn.GRU`, `nn.LSTM`) and the linear
projection (`nn.Linear`) are external library collaborators; they are
abstracted as opaque-to-the-model weight functions, as the specification
describes them in its section on the recurrent-cell contract.  Everything
else (construction dispatch on `rnn_type`, the encoder and decoder forward
passes, teacher forcing, the orchestrator's seed assembly) is translated
statement-by-statement from the Python source.

The global Python random source (`random.random()`) is modelled as a tape
`tape : Nat → ℚ` of uniform draws together with a cursor that every call
advances by one.  Python control flow and the shapes are modelled exactly:
slicing clamps instead of failing, a `match` statement with no matching
case falls through silently, and a missing `self.rnn` attribute raises at
the first access (modelled by `Except`).

The decoder additionally records two instrumentation logs that make the
frame and policy claims expressible: the list of buffer identifiers
written by the in-place assignment `outputs[:, t:t+1, :] = output`
(one entry per loop iteration, always the identifier of the freshly
allocated `outputs` buffer), and the list of per-step teacher-forcing
decisions.  Neither log influences the computed values.
-/

namespace Seq2SeqModel

/-- A rank-3 tensor with rational entries.  For sequence tensors the axes
are (batch, time, feature); for hidden and cell states they are
(layer, batch, hidden-feature).  Entries outside the advertised extents
are irrelevant junk, as in a strided view. -/
structure Tensor3 where
  d0 : Nat
  d1 : Nat
  d2 : Nat
  data : Nat → Nat → Nat → ℚ

/-- `torch.zeros(b, t, f)`: the freshly allocated all-zero buffer used for
`outputs` in `Decoder.forward`. -/
def Tensor3.zeros (b t f : Nat) : Tensor3 :=
  ⟨b, t, f, fun _ _ _ => 0⟩

/-- The Python slice `x[:, t:t+1, :]`.  Python slicing clamps to the valid
range: for `t < x.d1` the result has one time step (the entry at `t`),
for `t ≥ x.d1` it is empty along the time axis; it never raises. -/
def Tensor3.sliceT (x : Tensor3) (t : Nat) : Tensor3 :=
  ⟨x.d0, min (t + 1) x.d1 - min t x.d1, x.d2, fun b i f => x.data b (t + i) f⟩

/-- `Tensor.clone()`: a fresh buffer holding the same values.  Values are
identical; the freshness of the copy is tracked by the write log, not by
the value semantics. -/
def Tensor3.clone (x : Tensor3) : Tensor3 := x

/-- `past_targets[:, -1, :].unsqueeze(1)`: the last time step of a
sequence, kept as a length-1 sequence. -/
def Tensor3.lastStepUnsq (x : Tensor3) : Tensor3 :=
  ⟨x.d0, 1, x.d2, fun b _ f => x.data b (x.d1 - 1) f⟩

/-- `torch.cat([a, b], dim=1)`: concatenation along the time axis (the
well-shaped case, the only one the claims quantify over). -/
def Tensor3.cat1 (a b : Tensor3) : Tensor3 :=
  ⟨a.d0, a.d1 + b.d1, a.d2,
    fun i t f => if t < a.d1 then a.data i t f else b.data i (t - a.d1) f⟩

/-- `hidden[-1:]`: the slice keeping only the last layer of a stacked
hidden state (axis 0).  Clamped like every Python slice. -/
def Tensor3.lastAxis0 (x : Tensor3) : Tensor3 :=
  ⟨1, x.d1, x.d2, fun _ b f => x.data (x.d0 - 1) b f⟩

/-- `output.permute(1, 0, 2)`: swap the first two axes, putting the batch
dimension first. -/
def Tensor3.permute102 (x : Tensor3) : Tensor3 :=
  ⟨x.d1, x.d0, x.d2, fun b t f => x.data t b f⟩

/-- The in-place slice assignment `outputs[:, t:t+1, :] = output`: the
time-`t` row of `outs` is overwritten with the time-0 row of `v` (`v` has
a single time step).  The shape of `outs` is unchanged. -/
def Tensor3.setT (outs : Tensor3) (t : Nat) (v : Tensor3) : Tensor3 :=
  ⟨outs.d0, outs.d1, outs.d2,
    fun b u f => if u = t then v.data b 0 f else outs.data b u f⟩

/-- Modelled from the spec: the weight state of a constructed `nn.RNN` or
`nn.GRU` module (an external collaborator not part of this repository).
`runSeq x` is the final stacked hidden state after consuming the sequence
`x` from the default initial state; `runFrom x h` the same from the
initial hidden state `h`. -/
structure RNNCellW where
  runSeq : Tensor3 → Tensor3
  runFrom : Tensor3 → Tensor3 → Tensor3

/-- Modelled from the spec: the weight state of a constructed `nn.LSTM`
module (an external collaborator not part of this repository); like
`RNNCellW` but carrying a cell state alongside the hidden state. -/
structure LSTMCellW where
  runSeq : Tensor3 → Tensor3 × Tensor3
  runFrom : Tensor3 → Tensor3 × Tensor3 → Tensor3 × Tensor3

/-- Modelled from the spec: a constructed `nn.Linear(hidden_size,
input_size)` projection (external collaborator), applied pointwise along
the trailing feature axis. -/
structure LinearW where
  app : Tensor3 → Tensor3

/-- The concrete recurrent module stored in `self.rnn`: one of the three
variants the constructors can assign.  The runtime `isinstance` dispatch
of the source becomes a `match` on this type. -/
inductive RNNModule where
  | rnn (w : RNNCellW)
  | gru (w : RNNCellW)
  | lstm (w : LSTMCellW)

/-- Modelled from the spec: the library's module constructors
(`nn.RNN(...)`, `nn.GRU(...)`, `nn.LSTM(...)`, `nn.Linear(...)`), which
produce freshly initialised weights from the size arguments. -/
structure TorchEnv where
  mkRNN : Nat → Nat → Nat → RNNCellW
  mkGRU : Nat → Nat → Nat → RNNCellW
  mkLSTM : Nat → Nat → Nat → LSTMCellW
  mkLinear : Nat → Nat → LinearW

/-- Errors a forward pass can raise.  `missingRNNAttr` is the
`AttributeError` raised on first access of `self.rnn` when no case of the
construction-time `match rnn_type` assigned it; `noneCell` is the failure
of unpacking/using a `None` cell state in the LSTM branch. -/
inductive SeqErr where
  | missingRNNAttr
  | noneCell
deriving DecidableEq

/-- The `match rnn_type` statement shared by `Encoder.__init__` and
`Decoder.__init__` (lines 33-43 and 90-100): the three recognised strings
assign `self.rnn`; any other string matches no case, so the statement
falls through and the attribute is never assigned (`none`). -/
def mkRNNModule (env : TorchEnv) (input_size hidden_size num_layers : Nat)
    (rnn_type : String) : Option RNNModule :=
  if rnn_type = "rnn" then
    some (RNNModule.rnn (env.mkRNN input_size hidden_size num_layers))
  else if rnn_type = "gru" then
    some (RNNModule.gru (env.mkGRU input_size hidden_size num_layers))
  else if rnn_type = "lstm" then
    some (RNNModule.lstm (env.mkLSTM input_size hidden_size num_layers))
  else
    none

/-- The `Encoder` module: its only learned component is `self.rnn`. -/
structure Encoder where
  rnn : Option RNNModule

/-- `Encoder.__init__` (lines 17-43). -/
def Encoder.mk' (env : TorchEnv) (input_size hidden_size : Nat)
    (num_layers : Nat) (rnn_type : String) : Encoder :=
  ⟨mkRNNModule env input_size hidden_size num_layers rnn_type⟩

/-- `Encoder.forward` (lines 45-63): run `self.rnn` on the input and
return the final hidden state, plus the final cell state for the LSTM
variant and `None` otherwise.  The rng cursor `k` is threaded through and
returned unchanged: the source makes no call to the random source here.
The `raise TypeError` branch of the source is unreachable once `self.rnn`
is assigned, since the three constructors cover every assigned value;
accessing an unassigned `self.rnn` raises (`missingRNNAttr`). -/
def Encoder.fwd (e : Encoder) (x : Tensor3) (k : Nat) :
    Except SeqErr ((Tensor3 × Option Tensor3) × Nat) :=
  match e.rnn with
  | none => Except.error SeqErr.missingRNNAttr
  | some (RNNModule.lstm w) =>
      let hc := w.runSeq x
      Except.ok ((hc.1, some hc.2), k)
  | some (RNNModule.gru w) => Except.ok ((w.runSeq x, none), k)
  | some (RNNModule.rnn w) => Except.ok ((w.runSeq x, none), k)

/-- The `Decoder` module: `self.rnn`, the projection `self.fc`, and the
constructor-stored configuration. -/
structure Decoder where
  rnn : Option RNNModule
  fc : LinearW
  output_size : Nat
  output_sequence_len : Nat
  teacher_force_prob : Option ℚ

/-- `Decoder.__init__` (lines 69-104): the same `match rnn_type` dispatch,
then `self.fc = nn.Linear(hidden_size, input_size)`,
`self.output_size = input_size`, and the stored configuration. -/
def Decoder.mk' (env : TorchEnv) (input_size hidden_size : Nat)
    (rnn_type : String) (num_layers output_sequence_len : Nat)
    (teacher_force_prob : Option ℚ) : Decoder :=
  ⟨mkRNNModule env input_size hidden_size num_layers rnn_type,
    env.mkLinear hidden_size input_size,
    input_size, output_sequence_len, teacher_force_prob⟩

/-- The loop state of `Decoder.forward`: the Python local variables
`hidden`, `cell`, `current_input`, `outputs` and the random-source cursor,
plus two instrumentation logs: the buffer identifiers hit by the in-place
write `outputs[:, t:t+1, :] = output` (chronological), and the sequence of
`teacher_force` decisions. -/
structure DecState where
  hidden : Tensor3
  cell : Option Tensor3
  cur : Tensor3
  outs : Tensor3
  k : Nat
  writes : List Nat
  forced : List Bool

/-- The teacher-forcing decision of lines 135-139: when a probability is
configured, one uniform value is drawn (`random.random() <
self.teacher_force_prob`) and the cursor advances; when none is
configured the decision is `False` and no draw is consumed. -/
def forceDecision (tfp : Option ℚ) (tape : Nat → ℚ) (k : Nat) : Bool × Nat :=
  match tfp with
  | some p => (decide (tape k < p), k + 1)
  | none => (false, k)

/-- Lines 131-144 of `Decoder.forward`, common to the three variants:
`last_layer_hidden = hidden[-1:]`, `output = self.fc(...)` permuted
batch-first, the in-place write into `outputs` (logged against buffer id
`outsId`), the teacher-forcing decision, and the next `current_input`:
the cloned ground-truth slice `inputs[:, t:t+1, :]` when forcing, the
prediction otherwise. -/
def decTail (d : Decoder) (inputs : Tensor3) (tape : Nat → ℚ)
    (outsId t : Nat) (s : DecState) (hidden' : Tensor3)
    (cell' : Option Tensor3) : DecState :=
  let output := (d.fc.app hidden'.lastAxis0).permute102
  let outs' := s.outs.setT t output
  let fk := forceDecision d.teacher_force_prob tape s.k
  let cur' := if fk.1 then (inputs.sliceT t).clone else output
  ⟨hidden', cell', cur', outs', fk.2, s.writes ++ [outsId], s.forced ++ [fk.1]⟩

/-- One iteration of the `for t in range(self.output_sequence_len)` loop
of `Decoder.forward` (lines 124-144): run the cell one step from the
current state (the LSTM branch needs a real cell state; `None` there
fails), then the common tail `decTail`. -/
def decStep (d : Decoder) (inputs : Tensor3) (tape : Nat → ℚ)
    (outsId t : Nat) (s : DecState) : Except SeqErr DecState :=
  match d.rnn with
  | none => Except.error SeqErr.missingRNNAttr
  | some m =>
    match m, s.cell with
    | RNNModule.lstm _, none => Except.error SeqErr.noneCell
    | RNNModule.lstm w, some c =>
        let hc := w.runFrom s.cur (s.hidden, c)
        Except.ok (decTail d inputs tape outsId t s hc.1 (some hc.2))
    | RNNModule.gru w, c0 =>
        Except.ok (decTail d inputs tape outsId t s (w.runFrom s.cur s.hidden) c0)
    | RNNModule.rnn w, c0 =>
        Except.ok (decTail d inputs tape outsId t s (w.runFrom s.cur s.hidden) c0)

/-- The loop of `Decoder.forward`, iterated over the list of step
indices. -/
def decSteps (d : Decoder) (inputs : Tensor3) (tape : Nat → ℚ)
    (outsId : Nat) : List Nat → DecState → Except SeqErr DecState
  | [], s => Except.ok s
  | t :: ts, s =>
      match decStep d inputs tape outsId t s with
      | Except.error e => Except.error e
      | Except.ok s' => decSteps d inputs tape outsId ts s'

/-- `Decoder.forward` (lines 106-146): allocate the zero `outputs` buffer
(fresh id `outsId`), set `current_input = inputs[:, 0:1, :]`, run the
loop, return the final state (the source returns its `.outs`). -/
def Decoder.fwd (d : Decoder) (inputs hidden : Tensor3)
    (cell : Option Tensor3) (tape : Nat → ℚ) (k outsId : Nat) :
    Except SeqErr DecState :=
  let outputs := Tensor3.zeros inputs.d0 d.output_sequence_len d.output_size
  decSteps d inputs tape outsId (List.range d.output_sequence_len)
    ⟨hidden, cell, inputs.sliceT 0, outputs, k, [], []⟩

/-- The `Seq2Seq` module composing one encoder and one decoder. -/
structure Seq2Seq where
  encoder : Encoder
  decoder : Decoder

/-- `Seq2Seq.__init__` (lines 152-188). -/
def Seq2Seq.mk' (env : TorchEnv) (input_size : Nat) (rnn_type : String)
    (hidden_size output_sequence_len num_layers : Nat)
    (teacher_force_prob : Option ℚ) : Seq2Seq :=
  ⟨Encoder.mk' env input_size hidden_size num_layers rnn_type,
    Decoder.mk' env input_size hidden_size rnn_type num_layers
      output_sequence_len teacher_force_prob⟩

/-- Lines 200-205 of `Seq2Seq.forward`: the decoder's seed, built from the
last time step of `past_targets` concatenated with `future_targets` when
the latter is present. -/
def Seq2Seq.inputsDecoder (past : Tensor3) (future : Option Tensor3) : Tensor3 :=
  match future with
  | some f => past.lastStepUnsq.cat1 f
  | none => past.lastStepUnsq

/-- `Seq2Seq.forward` (lines 190-208): assemble the decoder seed, run the
encoder on `past_targets`, then the decoder seeded with the encoder's
final states.  The source returns the decoder's `outputs` tensor, the
`.outs` field of the returned state. -/
def Seq2Seq.fwd (m : Seq2Seq) (past : Tensor3) (future : Option Tensor3)
    (tape : Nat → ℚ) (k outsId : Nat) : Except SeqErr DecState :=
  let inputs := Seq2Seq.inputsDecoder past future
  match m.encoder.fwd past k with
  | Except.error e => Except.error e
  | Except.ok ((hidden, cell), k') =>
      m.decoder.fwd inputs hidden cell tape k' outsId

/-! ## Invariants of the decoder loop -/

/-- The cell-state requirement of a recurrent module: the LSTM variant
needs a present cell state (it unpacks it), the other two never read
it. -/
def cellOK : RNNModule → Option Tensor3 → Prop
  | RNNModule.lstm _, c => c.isSome = true
  | RNNModule.rnn _, _ => True
  | RNNModule.gru _, _ => True

theorem decStep_total (d : Decoder) (inputs : Tensor3) (tape : Nat → ℚ)
    (oid t : Nat) (m : RNNModule) (hm : d.rnn = some m) (s : DecState)
    (hc : cellOK m s.cell) :
    ∃ s', decStep d inputs tape oid t s = Except.ok s' ∧ cellOK m s'.cell ∧
      s'.outs = s.outs.setT t (d.fc.app s'.hidden.lastAxis0).permute102 ∧
      s'.cur = (if (forceDecision d.teacher_force_prob tape s.k).1 then
        (inputs.sliceT t).clone else (d.fc.app s'.hidden.lastAxis0).permute102) ∧
      s'.k = (forceDecision d.teacher_force_prob tape s.k).2 ∧
      s'.writes = s.writes ++ [oid] ∧
      s'.forced = s.forced ++ [(forceDecision d.teacher_force_prob tape s.k).1] := by
  cases m with
  | lstm w =>
      cases hcell : s.cell with
      | none => rw [cellOK, hcell] at hc; simp at hc
      | some c =>
          have hstep : decStep d inputs tape oid t s =
              Except.ok (decTail d inputs tape oid t s
                (w.runFrom s.cur (s.hidden, c)).1
                (some (w.runFrom s.cur (s.hidden, c)).2)) := by
            simp [decStep, hm, hcell]
          exact ⟨_, hstep, by simp [decTail, cellOK], by simp [decTail],
            by simp [decTail], by simp [decTail], by simp [decTail],
            by simp [decTail]⟩
  | rnn w =>
      have hstep : decStep d inputs tape oid t s =
          Except.ok (decTail d inputs tape oid t s
            (w.runFrom s.cur s.hidden) s.cell) := by
        simp [decStep, hm]
      exact ⟨_, hstep, by simp [decTail, cellOK], by simp [decTail],
        by simp [decTail], by simp [decTail], by simp [decTail],
        by simp [decTail]⟩
  | gru w =>
      have hstep : decStep d inputs tape oid t s =
          Except.ok (decTail d inputs tape oid t s
            (w.runFrom s.cur s.hidden) s.cell) := by
        simp [decStep, hm]
      exact ⟨_, hstep, by simp [decTail, cellOK], by simp [decTail],
        by simp [decTail], by simp [decTail], by simp [decTail],
        by simp [decTail]⟩

theorem decSteps_total (d : Decoder) (inputs : Tensor3) (tape : Nat → ℚ)
    (oid : Nat) (m : RNNModule) (hm : d.rnn = some m) :
    ∀ (ts : List Nat) (s : DecState), cellOK m s.cell →
    ∃ s', decSteps d inputs tape oid ts s = Except.ok s' ∧ cellOK m s'.cell ∧
      s'.outs.d0 = s.outs.d0 ∧ s'.outs.d1 = s.outs.d1 ∧ s'.outs.d2 = s.outs.d2 ∧
      s'.writes = s.writes ++ List.replicate ts.length oid ∧
      s'.forced.length = s.forced.length + ts.length := by
  intro ts
  induction ts with
  | nil => intro s hc; exact ⟨s, rfl, hc, rfl, rfl, rfl, by simp, by simp⟩
  | cons t ts ih =>
      intro s hc
      obtain ⟨s₁, hstep, hc₁, houts, _, _, hw, hf⟩ :=
        decStep_total d inputs tape oid t m hm s hc
      obtain ⟨s₂, hrun, hc₂, h0, h1, h2, hw₂, hf₂⟩ := ih s₁ hc₁
      refine ⟨s₂, ?_, hc₂, ?_, ?_, ?_, ?_, ?_⟩
      · rw [decSteps, hstep]; exact hrun
      · rw [h0, houts]; rfl
      · rw [h1, houts]; rfl
      · rw [h2, houts]; rfl
      · rw [hw₂, hw]; simp [List.replicate_succ]
      · rw [hf₂, hf]
        simp only [List.length_append, List.length_cons, List.length_nil,
          List.length_cons]
        omega

theorem decSteps_no_force (d : Decoder) (inputs : Tensor3) (tape : Nat → ℚ)
    (oid : Nat) (htfp : d.teacher_force_prob = none) :
    ∀ (ts : List Nat) (s s' : DecState),
    decSteps d inputs tape oid ts s = Except.ok s' →
    s'.forced = s.forced ++ List.replicate ts.length false ∧ s'.k = s.k := by
  intro ts
  induction ts with
  | nil =>
      intro s s' h
      rw [decSteps] at h
      cases h
      exact ⟨by simp, rfl⟩
  | cons t ts ih =>
      intro s s' h
      rw [decSteps] at h
      cases hstep : decStep d inputs tape oid t s with
      | error e => rw [hstep] at h; cases h
      | ok s₁ =>
          rw [hstep] at h
          obtain ⟨hf, hk⟩ := ih s₁ s' h
          have hs₁ : s₁.forced = s.forced ++ [false] ∧ s₁.k = s.k := by
            rw [decStep] at hstep
            cases hrnn : d.rnn with
            | none => rw [hrnn] at hstep; cases hstep
            | some m =>
                rw [hrnn] at hstep
                cases m with
                | lstm w =>
                    cases hcell : s.cell with
                    | none => rw [hcell] at hstep; cases hstep
                    | some c =>
                        rw [hcell] at hstep
                        cases hstep
                        simp [decTail, forceDecision, htfp]
                | rnn w => cases hstep; simp [decTail, forceDecision, htfp]
                | gru w => cases hstep; simp [decTail, forceDecision, htfp]
          refine ⟨?_, by rw [hk, hs₁.2]⟩
          rw [hf, hs₁.1]
          simp [List.replicate_succ]

theorem inputsDecoder_d0 (past : Tensor3) (future : Option Tensor3) :
    (Seq2Seq.inputsDecoder past future).d0 = past.d0 := by
  cases future <;> rfl

theorem decoder_fwd_total (d : Decoder) (inputs hidden : Tensor3)
    (cell : Option Tensor3) (tape : Nat → ℚ) (k oid : Nat) (m : RNNModule)
    (hm : d.rnn = some m) (hc : cellOK m cell) :
    ∃ s, d.fwd inputs hidden cell tape k oid = Except.ok s ∧
      s.outs.d0 = inputs.d0 ∧ s.outs.d1 = d.output_sequence_len ∧
      s.outs.d2 = d.output_size ∧
      s.writes = List.replicate d.output_sequence_len oid ∧
      s.forced.length = d.output_sequence_len ∧
      (d.teacher_force_prob = none →
        s.forced = List.replicate d.output_sequence_len false ∧ s.k = k) := by
  obtain ⟨s', hrun, _, h0, h1, h2, hw, hf⟩ :=
    decSteps_total d inputs tape oid m hm (List.range d.output_sequence_len)
      ⟨hidden, cell, inputs.sliceT 0,
        Tensor3.zeros inputs.d0 d.output_sequence_len d.output_size, k, [], []⟩ hc
  refine ⟨s', hrun, ?_, ?_, ?_, ?_, ?_, ?_⟩
  · exact h0
  · exact h1
  · exact h2
  · simpa using hw
  · simpa using hf
  · intro htfp
    obtain ⟨hfo, hk⟩ := decSteps_no_force d inputs tape oid htfp
      (List.range d.output_sequence_len) _ s' hrun
    exact ⟨by simpa using hfo, hk⟩

theorem seq2seq_fwd_ok (env : TorchEnv) (input_size : Nat) (rt : String)
    (hs n nl : Nat) (tfp : Option ℚ) (past : Tensor3) (future : Option Tensor3)
    (tape : Nat → ℚ) (k oid : Nat)
    (hty : rt = "rnn" ∨ rt = "gru" ∨ rt = "lstm") :
    ∃ s, (Seq2Seq.mk' env input_size rt hs n nl tfp).fwd past future tape k oid
        = Except.ok s ∧
      s.outs.d0 = past.d0 ∧ s.outs.d1 = n ∧ s.outs.d2 = input_size ∧
      s.writes = List.replicate n oid ∧ s.forced.length = n ∧
      (tfp = none → s.forced = List.replicate n false ∧ s.k = k) := by
  rcases hty with rfl | rfl | rfl
  · obtain ⟨s, hrun, h0, h1, h2, hw, hf, htf⟩ :=
      decoder_fwd_total (Seq2Seq.mk' env input_size "rnn" hs n nl tfp).decoder
        (Seq2Seq.inputsDecoder past future)
        ((env.mkRNN input_size hs nl).runSeq past) none tape k oid
        (RNNModule.rnn (env.mkRNN input_size hs nl))
        (by simp [Seq2Seq.mk', Decoder.mk', mkRNNModule]) trivial
    refine ⟨s, ?_, by rw [h0, inputsDecoder_d0], h1, h2, hw, hf,
      fun h => htf h⟩
    simpa [Seq2Seq.fwd, Seq2Seq.mk', Encoder.mk', Encoder.fwd,
      mkRNNModule] using hrun
  · obtain ⟨s, hrun, h0, h1, h2, hw, hf, htf⟩ :=
      decoder_fwd_total (Seq2Seq.mk' env input_size "gru" hs n nl tfp).decoder
        (Seq2Seq.inputsDecoder past future)
        ((env.mkGRU input_size hs nl).runSeq past) none tape k oid
        (RNNModule.gru (env.mkGRU input_size hs nl))
        (by simp [Seq2Seq.mk', Decoder.mk', mkRNNModule]) trivial
    refine ⟨s, ?_, by rw [h0, inputsDecoder_d0], h1, h2, hw, hf,
      fun h => htf h⟩
    simpa [Seq2Seq.fwd, Seq2Seq.mk', Encoder.mk', Encoder.fwd,
      mkRNNModule] using hrun
  · obtain ⟨s, hrun, h0, h1, h2, hw, hf, htf⟩ :=
      decoder_fwd_total (Seq2Seq.mk' env input_size "lstm" hs n nl tfp).decoder
        (Seq2Seq.inputsDecoder past future)
        (((env.mkLSTM input_size hs nl).runSeq past).1)
        (some ((env.mkLSTM input_size hs nl).runSeq past).2) tape k oid
        (RNNModule.lstm (env.mkLSTM input_size hs nl))
        (by simp [Seq2Seq.mk', Decoder.mk', mkRNNModule])
        (by rw [cellOK]; rfl)
    refine ⟨s, ?_, by rw [h0, inputsDecoder_d0], h1, h2, hw, hf,
      fun h => htf h⟩
    simpa [Seq2Seq.fwd, Seq2Seq.mk', Encoder.mk', Encoder.fwd,
      mkRNNModule] using hrun

/-! ## Concrete instances used by witnesses and counterexamples -/

/-- A fixed dummy tensor. -/
def t0 : Tensor3 := Tensor3.zeros 1 1 1

/-- A concrete torch environment whose cells always return the all-zero
state: enough to exercise the control flow of the model at concrete
inputs. -/
def trivEnv : TorchEnv :=
  ⟨fun _ _ _ => ⟨fun _ => t0, fun _ _ => t0⟩,
   fun _ _ _ => ⟨fun _ => t0, fun _ _ => t0⟩,
   fun _ _ _ => ⟨fun _ => (t0, t0), fun _ _ => (t0, t0)⟩,
   fun _ _ => ⟨fun x => x⟩⟩

/-- The constant-zero random tape: every uniform draw is `0`. -/
def tape0 : Nat → ℚ := fun _ => 0

/-- A concrete past sequence: batch 1, three time steps, one feature,
every entry `5`. -/
def past5 : Tensor3 := ⟨1, 3, 1, fun _ _ _ => 5⟩

/-! ## Claims -/

/-- C1: for every valid configuration (any `input_size`, `hidden_size`,
`num_layers`, recognised `rnn_type`, `output_sequence_len`) and every
well-shaped input pair, `Seq2Seq.forward` returns a tensor of shape
`(batch, output_sequence_len, input_size)`, where `batch` is the first
axis of `past_targets`. -/
theorem c1_forward_output_shape (env : TorchEnv) (input_size : Nat)
    (rt : String) (hs n nl : Nat) (tfp : Option ℚ) (past : Tensor3)
    (future : Option Tensor3) (tape : Nat → ℚ) (k oid : Nat)
    (hty : rt = "rnn" ∨ rt = "gru" ∨ rt = "lstm") :
    ∃ s, (Seq2Seq.mk' env input_size rt hs n nl tfp).fwd past future tape k oid
        = Except.ok s ∧
      s.outs.d0 = past.d0 ∧ s.outs.d1 = n ∧ s.outs.d2 = input_size := by
  obtain ⟨s, hrun, h0, h1, h2, _, _, _⟩ :=
    seq2seq_fwd_ok env input_size rt hs n nl tfp past future tape k oid hty
  exact ⟨s, hrun, h0, h1, h2⟩

/-- Witness for C1 at a concrete configuration: `input_size = 1`,
`rnn_type = "rnn"`, `output_sequence_len = 2`, batch 1, past length 3. -/
theorem c1_forward_output_shape_witness :
    ∃ s, (Seq2Seq.mk' trivEnv 1 "rnn" 1 2 1 none).fwd past5 none tape0 0 5
        = Except.ok s ∧
      s.outs.d0 = 1 ∧ s.outs.d1 = 2 ∧ s.outs.d2 = 1 := by
  have h := c1_forward_output_shape trivEnv 1 "rnn" 1 2 1 none past5 none
    tape0 0 5 (Or.inl rfl)
  simpa [past5] using h

/-- C2 counterexample: the claim says an unrecognized `rnn_type` raises a
configuration error at construction time.  It does not: in the source the
`match rnn_type` statements of `Encoder.__init__` and `Decoder.__init__`
have no default case, so an unrecognized string matches nothing and
construction completes silently with `self.rnn` never assigned.  At the
concrete input `rnn_type = "transformer"`, construction succeeds (both
modules are well-defined values with `rnn` unset) and the error instead
surfaces at the first forward call, as the missing-attribute error. -/
theorem c2_counterexample :
    (Encoder.mk' trivEnv 1 1 1 "transformer").rnn = none ∧
    (Decoder.mk' trivEnv 1 1 "transformer" 1 2 none).rnn = none ∧
    (Seq2Seq.mk' trivEnv 1 "transformer" 1 2 1 none).fwd past5 none tape0 0 5
      = Except.error SeqErr.missingRNNAttr := by
  refine ⟨rfl, rfl, rfl⟩

/-- C2 (amended): for every `rnn_type` that is not one of the recognized
variants, construction does not fail — the construction-time `match`
statements fall through and both submodules are left with `rnn` unset —
and the configuration error is deferred to the first forward call, which
fails with the missing-attribute error. -/
theorem c2_unrecognized_type_deferred (env : TorchEnv)
    (input_size hs n nl : Nat) (tfp : Option ℚ) (rt : String)
    (past : Tensor3) (future : Option Tensor3) (tape : Nat → ℚ) (k oid : Nat)
    (h1 : rt ≠ "rnn") (h2 : rt ≠ "gru") (h3 : rt ≠ "lstm") :
    (Seq2Seq.mk' env input_size rt hs n nl tfp).encoder.rnn = none ∧
    (Seq2Seq.mk' env input_size rt hs n nl tfp).decoder.rnn = none ∧
    (Seq2Seq.mk' env input_size rt hs n nl tfp).fwd past future tape k oid
      = Except.error SeqErr.missingRNNAttr := by
  have he : (Seq2Seq.mk' env input_size rt hs n nl tfp).encoder.rnn = none := by
    simp [Seq2Seq.mk', Encoder.mk', mkRNNModule, h1, h2, h3]
  have hd : (Seq2Seq.mk' env input_size rt hs n nl tfp).decoder.rnn = none := by
    simp [Seq2Seq.mk', Decoder.mk', mkRNNModule, h1, h2, h3]
  refine ⟨he, hd, ?_⟩
  simp [Seq2Seq.fwd, Encoder.fwd, he]

/-- Witness for the amended C2 at the concrete string `"transformer"`. -/
theorem c2_unrecognized_type_deferred_witness :
    (Seq2Seq.mk' trivEnv 1 "transformer" 1 2 1 none).encoder.rnn = none ∧
    (Seq2Seq.mk' trivEnv 1 "transformer" 1 2 1 none).decoder.rnn = none ∧
    (Seq2Seq.mk' trivEnv 1 "transformer" 1 2 1 none).fwd past5 none tape0 0 7
      = Except.error SeqErr.missingRNNAttr :=
  c2_unrecognized_type_deferred trivEnv 1 1 2 1 none "transformer" past5 none
    tape0 0 7 (by decide) (by decide) (by decide)

/-- C3 counterexample: the claim says that when `future_targets` is absent
teacher forcing never triggers, no decoder step using a ground-truth value
as its next input.  False: the forcing decision is drawn regardless of how
`seed_inputs` was assembled.  Concretely, with `rnn_type = "rnn"`,
`output_sequence_len = 1`, `teacher_force_prob = 1`, no future targets, a
constant-5 past sequence, the zero tape (draw `0 < 1` forces), and cells
returning zero states: the run succeeds, the single step takes the
forcing branch (`forced = [true]`), and the next decoder input is the
ground-truth last past value `5`, not the step's prediction `0`. -/
theorem c3_counterexample :
    ((Seq2Seq.mk' trivEnv 1 "rnn" 1 1 1 (some 1)).fwd past5 none tape0 0 5).map
        (fun s => (s.forced, s.cur.data 0 0 0, s.outs.data 0 0 0))
      = Except.ok ([true], 5, 0) := by
  rfl

/-- C3 (amended): when `future_targets` is absent, `Seq2Seq.forward`
still returns a correctly shaped output for every valid configuration;
teacher forcing, however, is not structurally impossible: it never
triggers when no probability is configured (every per-step decision is
`false` and the random source is not consumed), while with a probability
configured the forcing branch can still fire, reusing the single seed
step (the last past time step) or an empty slice as the next input. -/
theorem c3_no_future_targets (env : TorchEnv) (input_size : Nat)
    (rt : String) (hs n nl : Nat) (tfp : Option ℚ) (past : Tensor3)
    (tape : Nat → ℚ) (k oid : Nat)
    (hty : rt = "rnn" ∨ rt = "gru" ∨ rt = "lstm") :
    ∃ s, (Seq2Seq.mk' env input_size rt hs n nl tfp).fwd past none tape k oid
        = Except.ok s ∧
      s.outs.d0 = past.d0 ∧ s.outs.d1 = n ∧ s.outs.d2 = input_size ∧
      (tfp = none → s.forced = List.replicate n false ∧ s.k = k) := by
  obtain ⟨s, hrun, h0, h1, h2, _, _, htf⟩ :=
    seq2seq_fwd_ok env input_size rt hs n nl tfp past none tape k oid hty
  exact ⟨s, hrun, h0, h1, h2, htf⟩

/-- Witness for the amended C3: `rnn_type = "gru"`, no probability
configured, no future targets. -/
theorem c3_no_future_targets_witness :
    ∃ s, (Seq2Seq.mk' trivEnv 1 "gru" 1 2 1 none).fwd past5 none tape0 3 5
        = Except.ok s ∧
      s.outs.d0 = 1 ∧ s.outs.d1 = 2 ∧ s.outs.d2 = 1 ∧
      (s.forced = [false, false] ∧ s.k = 3) := by
  obtain ⟨s, hrun, h0, h1, h2, htf⟩ := c3_no_future_targets trivEnv 1 "gru"
    1 2 1 none past5 tape0 3 5 (Or.inr (Or.inl rfl))
  obtain ⟨hfo, hk⟩ := htf rfl
  exact ⟨s, hrun, by simpa [past5] using h0, h1, h2, by simpa using hfo, hk⟩

/-- A concrete decoder with teacher-forcing probability `1`
(`rnn_type = "rnn"`, two output steps). -/
def d5 : Decoder := Decoder.mk' trivEnv 1 1 "rnn" 1 2 (some 1)

/-- A concrete decoder with no teacher-forcing probability
(`rnn_type = "gru"`, two output steps). -/
def d6 : Decoder := Decoder.mk' trivEnv 1 1 "gru" 1 2 none

/-- A concrete LSTM decoder asked for three output steps. -/
def d4 : Decoder := Decoder.mk' trivEnv 1 1 "lstm" 1 3 (some 1)

/-- A concrete decoder loop state over `past5` with two output steps. -/
def sInit : DecState := ⟨t0, none, past5.sliceT 0, Tensor3.zeros 1 2 1, 0, [], []⟩

/-- A concrete LSTM decoder loop state over the single-step seed
`past5.lastStepUnsq` with three output steps. -/
def sInitL : DecState :=
  ⟨t0, some t0, past5.lastStepUnsq.sliceT 0, Tensor3.zeros 1 3 1, 0, [], []⟩

/-- C4: for a `seed_inputs` with fewer time steps than
`output_sequence_len`, a decoder step that decides to teacher-force does
not index `seed_inputs` out of bounds: Python slicing clamps
`inputs[:, t:t+1, :]` to the valid range, so every entry of the slice the
forced step reuses comes from a time index strictly below the number of
time steps of `seed_inputs` (for `t` past the end the slice is empty),
and the step does not fail on that access. -/
theorem c4_forcing_access_in_bounds (d : Decoder) (inputs : Tensor3)
    (tape : Nat → ℚ) (oid t : Nat) (s : DecState) (m : RNNModule)
    (hm : d.rnn = some m) (hc : cellOK m s.cell)
    (_hshort : inputs.d1 < d.output_sequence_len) :
    ∃ s' b, decStep d inputs tape oid t s = Except.ok s' ∧
      s'.forced = s.forced ++ [b] ∧
      (b = true → s'.cur = (inputs.sliceT t).clone) ∧
      (∀ i, i < (inputs.sliceT t).d1 → t + i < inputs.d1) := by
  obtain ⟨s', hok, _, _, hcur, _, _, hforced⟩ :=
    decStep_total d inputs tape oid t m hm s hc
  refine ⟨s', (forceDecision d.teacher_force_prob tape s.k).1, hok, hforced,
    ?_, ?_⟩
  · intro hb; rw [hcur, hb]; simp
  · intro i hi
    simp only [Tensor3.sliceT] at hi
    omega

/-- Witness for C4: the LSTM decoder `d4` (three output steps) over the
one-step seed `past5.lastStepUnsq`, at the out-of-range step index 2. -/
theorem c4_forcing_access_in_bounds_witness :
    ∃ s' b, decStep d4 past5.lastStepUnsq tape0 9 2 sInitL = Except.ok s' ∧
      s'.forced = [] ++ [b] ∧
      (b = true → s'.cur = (past5.lastStepUnsq.sliceT 2).clone) ∧
      (∀ i, i < (past5.lastStepUnsq.sliceT 2).d1 →
        2 + i < past5.lastStepUnsq.d1) :=
  c4_forcing_access_in_bounds d4 past5.lastStepUnsq tape0 9 2 sInitL
    (RNNModule.lstm (trivEnv.mkLSTM 1 1 1)) rfl rfl (by decide)

/-- C7: `Seq2Seq.forward` builds the decoder's `seed_inputs` as the
concatenation, along the time axis, of the last time step of
`past_targets` (kept as a length-1 sequence) followed by all of
`future_targets` when present, and as exactly that single last time step
when absent; and it hands exactly this tensor to the decoder together
with the encoder's final states. -/
theorem c7_seed_assembly (m : Seq2Seq) (past f : Tensor3) (tape : Nat → ℚ)
    (k oid : Nat) (_hpast : 1 ≤ past.d1) :
    ((Seq2Seq.inputsDecoder past (some f)).d0 = past.d0 ∧
      (Seq2Seq.inputsDecoder past (some f)).d1 = 1 + f.d1 ∧
      (Seq2Seq.inputsDecoder past (some f)).d2 = past.d2 ∧
      (∀ b c, (Seq2Seq.inputsDecoder past (some f)).data b 0 c
          = past.data b (past.d1 - 1) c) ∧
      (∀ b i c, i < f.d1 →
        (Seq2Seq.inputsDecoder past (some f)).data b (1 + i) c
          = f.data b i c)) ∧
    ((Seq2Seq.inputsDecoder past none).d0 = past.d0 ∧
      (Seq2Seq.inputsDecoder past none).d1 = 1 ∧
      (Seq2Seq.inputsDecoder past none).d2 = past.d2 ∧
      ∀ b c, (Seq2Seq.inputsDecoder past none).data b 0 c
          = past.data b (past.d1 - 1) c) ∧
    (∀ (future : Option Tensor3) (hidden : Tensor3) (cell : Option Tensor3)
      (k' : Nat), m.encoder.fwd past k = Except.ok ((hidden, cell), k') →
      m.fwd past future tape k oid
        = m.decoder.fwd (Seq2Seq.inputsDecoder past future) hidden cell
            tape k' oid) := by
  refine ⟨⟨rfl, rfl, rfl, ?_, ?_⟩, ⟨rfl, rfl, rfl, fun b c => rfl⟩, ?_⟩
  · intro b c
    simp [Seq2Seq.inputsDecoder, Tensor3.cat1, Tensor3.lastStepUnsq]
  · intro b i c hi
    have hidx : 1 + i - 1 = i := by omega
    simp [Seq2Seq.inputsDecoder, Tensor3.cat1, Tensor3.lastStepUnsq, hidx]
  · intro future hidden cell k' henc
    simp only [Seq2Seq.fwd, henc]

/-- Witness for C7 at a concrete past sequence (`past5`, three time
steps) and future sequence (two zero time steps). -/
theorem c7_seed_assembly_witness :
    (Seq2Seq.inputsDecoder past5 (some (Tensor3.zeros 1 2 1))).d1 = 1 + 2 ∧
    (Seq2Seq.inputsDecoder past5 none).d1 = 1 ∧
    (∀ b c, (Seq2Seq.inputsDecoder past5 none).data b 0 c
        = past5.data b (past5.d1 - 1) c) := by
  have h := c7_seed_assembly (Seq2Seq.mk' trivEnv 1 "rnn" 1 1 1 none) past5
    (Tensor3.zeros 1 2 1) tape0 0 5 (by decide)
  exact ⟨h.1.2.1, h.2.1.2.1, h.2.1.2.2.2⟩

/-- C8: the encoder's forward pass is a pure, deterministic function of
its input and weights: any two successful invocations on the same input
and the same (immutable) module return identical (hidden, cell) results
whatever the random-source position, and neither consumes the random
source (the returned cursor equals the one passed in). -/
theorem c8_encoder_pure (e : Encoder) (x : Tensor3) (k₁ k₂ : Nat)
    (r₁ r₂ : (Tensor3 × Option Tensor3) × Nat)
    (h₁ : e.fwd x k₁ = Except.ok r₁) (h₂ : e.fwd x k₂ = Except.ok r₂) :
    r₁.1 = r₂.1 ∧ r₁.2 = k₁ ∧ r₂.2 = k₂ := by
  cases hrnn : e.rnn with
  | none => simp [Encoder.fwd, hrnn] at h₁
  | some m =>
      cases m with
      | rnn w =>
          simp only [Encoder.fwd, hrnn] at h₁ h₂
          cases h₁; cases h₂; exact ⟨rfl, rfl, rfl⟩
      | gru w =>
          simp only [Encoder.fwd, hrnn] at h₁ h₂
          cases h₁; cases h₂; exact ⟨rfl, rfl, rfl⟩
      | lstm w =>
          simp only [Encoder.fwd, hrnn] at h₁ h₂
          cases h₁; cases h₂; exact ⟨rfl, rfl, rfl⟩

/-- Witness for C8: the concrete LSTM encoder on `past5` at two
different random-source positions. -/
theorem c8_encoder_pure_witness :
    ∃ r₁ r₂, (Encoder.mk' trivEnv 1 1 1 "lstm").fwd past5 3 = Except.ok r₁ ∧
      (Encoder.mk' trivEnv 1 1 1 "lstm").fwd past5 7 = Except.ok r₂ ∧
      r₁.1 = r₂.1 ∧ r₁.2 = 3 ∧ r₂.2 = 7 :=
  ⟨_, _, rfl, rfl,
    c8_encoder_pure (Encoder.mk' trivEnv 1 1 1 "lstm") past5 3 7 _ _ rfl rfl⟩

/-- All the fields of a decoder loop state except the cell state. -/
def DecState.sansCell (s : DecState) :
    Tensor3 × Tensor3 × Tensor3 × Nat × List Nat × List Bool :=
  (s.hidden, s.cur, s.outs, s.k, s.writes, s.forced)

theorem decTail_sansCell (d : Decoder) (inputs : Tensor3) (tape : Nat → ℚ)
    (oid t : Nat) (s₁ s₂ : DecState) (h' : Tensor3) (c₁ c₂ : Option Tensor3)
    (h : s₁.sansCell = s₂.sansCell) :
    (decTail d inputs tape oid t s₁ h' c₁).sansCell
      = (decTail d inputs tape oid t s₂ h' c₂).sansCell := by
  simp only [DecState.sansCell, Prod.mk.injEq] at h
  obtain ⟨h1, h2, h3, h4, h5, h6⟩ := h
  simp [decTail, DecState.sansCell, h2, h3, h4, h5, h6]

theorem decSteps_cell_indep (d : Decoder) (inputs : Tensor3) (tape : Nat → ℚ)
    (oid : Nat) (w : RNNCellW)
    (hm : d.rnn = some (RNNModule.rnn w) ∨ d.rnn = some (RNNModule.gru w)) :
    ∀ (ts : List Nat) (s₁ s₂ : DecState), s₁.sansCell = s₂.sansCell →
    (decSteps d inputs tape oid ts s₁).map DecState.sansCell
      = (decSteps d inputs tape oid ts s₂).map DecState.sansCell := by
  intro ts
  induction ts with
  | nil => intro s₁ s₂ h; simp [decSteps, Except.map, h]
  | cons t ts ih =>
      intro s₁ s₂ h
      have hfields := h
      simp only [DecState.sansCell, Prod.mk.injEq] at hfields
      obtain ⟨hhid, hcur, _, _, _, _⟩ := hfields
      have hch : w.runFrom s₂.cur s₂.hidden = w.runFrom s₁.cur s₁.hidden := by
        rw [hcur, hhid]
      rcases hm with hm | hm
      · have hstep₁ : decStep d inputs tape oid t s₁ =
            Except.ok (decTail d inputs tape oid t s₁
              (w.runFrom s₁.cur s₁.hidden) s₁.cell) := by
          simp [decStep, hm]
        have hstep₂ : decStep d inputs tape oid t s₂ =
            Except.ok (decTail d inputs tape oid t s₂
              (w.runFrom s₁.cur s₁.hidden) s₂.cell) := by
          simp [decStep, hm, hch]
        rw [decSteps, hstep₁, decSteps, hstep₂]
        exact ih _ _ (decTail_sansCell d inputs tape oid t s₁ s₂ _ _ _ h)
      · have hstep₁ : decStep d inputs tape oid t s₁ =
            Except.ok (decTail d inputs tape oid t s₁
              (w.runFrom s₁.cur s₁.hidden) s₁.cell) := by
          simp [decStep, hm]
        have hstep₂ : decStep d inputs tape oid t s₂ =
            Except.ok (decTail d inputs tape oid t s₂
              (w.runFrom s₁.cur s₁.hidden) s₂.cell) := by
          simp [decStep, hm, hch]
        rw [decSteps, hstep₁, decSteps, hstep₂]
        exact ih _ _ (decTail_sansCell d inputs tape oid t s₁ s₂ _ _ _ h)

/-- C9: for the non-LSTM variants (`"rnn"` and `"gru"`), the encoder
always returns a `None` cell state; the decoder never reads its cell
argument — its run is identical, in every field except the carried-along
cell, for any two cell arguments — and the full forward pipeline
succeeds with the `None` cell (the null value is never dereferenced). -/
theorem c9_non_lstm_cell_unused (env : TorchEnv) (input_size : Nat)
    (rt : String) (hs n nl : Nat) (tfp : Option ℚ)
    (past inputs hidden : Tensor3) (c₁ c₂ : Option Tensor3)
    (future : Option Tensor3) (tape : Nat → ℚ) (k oid : Nat)
    (hty : rt = "rnn" ∨ rt = "gru") :
    (∃ h k₀, (Seq2Seq.mk' env input_size rt hs n nl tfp).encoder.fwd past k
        = Except.ok ((h, none), k₀)) ∧
    ((Seq2Seq.mk' env input_size rt hs n nl tfp).decoder.fwd inputs hidden c₁
        tape k oid).map DecState.sansCell
      = ((Seq2Seq.mk' env input_size rt hs n nl tfp).decoder.fwd inputs hidden
          c₂ tape k oid).map DecState.sansCell ∧
    (∃ s, (Seq2Seq.mk' env input_size rt hs n nl tfp).fwd past future tape
        k oid = Except.ok s) := by
  have hok : ∃ s, (Seq2Seq.mk' env input_size rt hs n nl tfp).fwd past future
      tape k oid = Except.ok s := by
    obtain ⟨s, hrun, _⟩ := seq2seq_fwd_ok env input_size rt hs n nl tfp past
      future tape k oid (by rcases hty with h | h <;> simp [h])
    exact ⟨s, hrun⟩
  rcases hty with rfl | rfl
  · refine ⟨⟨(env.mkRNN input_size hs nl).runSeq past, k, ?_⟩, ?_, hok⟩
    · simp [Seq2Seq.mk', Encoder.mk', Encoder.fwd, mkRNNModule]
    · exact decSteps_cell_indep _ inputs tape oid (env.mkRNN input_size hs nl)
        (Or.inl (by simp [Seq2Seq.mk', Decoder.mk', mkRNNModule])) _ _ _ rfl
  · refine ⟨⟨(env.mkGRU input_size hs nl).runSeq past, k, ?_⟩, ?_, hok⟩
    · simp [Seq2Seq.mk', Encoder.mk', Encoder.fwd, mkRNNModule]
    · exact decSteps_cell_indep _ inputs tape oid (env.mkGRU input_size hs nl)
        (Or.inr (by simp [Seq2Seq.mk', Decoder.mk', mkRNNModule])) _ _ _ rfl

/-- Witness for C9 at a concrete `"gru"` configuration, comparing a
`None` cell argument against a dummy present one. -/
theorem c9_non_lstm_cell_unused_witness :
    (∃ h k₀, (Seq2Seq.mk' trivEnv 1 "gru" 1 2 1 none).encoder.fwd past5 0
        = Except.ok ((h, none), k₀)) ∧
    ((Seq2Seq.mk' trivEnv 1 "gru" 1 2 1 none).decoder.fwd past5 t0 none
        tape0 0 5).map DecState.sansCell
      = ((Seq2Seq.mk' trivEnv 1 "gru" 1 2 1 none).decoder.fwd past5 t0
          (some t0) tape0 0 5).map DecState.sansCell ∧
    (∃ s, (Seq2Seq.mk' trivEnv 1 "gru" 1 2 1 none).fwd past5 none tape0 0 5
        = Except.ok s) :=
  c9_non_lstm_cell_unused trivEnv 1 "gru" 1 2 1 none past5 past5 t0 none
    (some t0) none tape0 0 5 (Or.inr rfl)

/-- C10: `Seq2Seq.forward` never writes into its input tensors'
buffers: every in-place write performed during a successful forward pass
targets the freshly allocated zero-initialized `outputs` buffer (`oid`),
so the buffers of `past_targets` and `future_targets` — whose identifiers
differ from the fresh `oid` by allocator freshness — are never written
(and the ground-truth slice reused by teacher forcing is a clone, not
fed back as a view). -/
theorem c10_no_input_buffer_writes (env : TorchEnv) (input_size : Nat)
    (rt : String) (hs n nl : Nat) (tfp : Option ℚ) (past : Tensor3)
    (future : Option Tensor3) (tape : Nat → ℚ) (k oid pastId futId : Nat)
    (hty : rt = "rnn" ∨ rt = "gru" ∨ rt = "lstm")
    (hp : pastId ≠ oid) (hf : futId ≠ oid) :
    ∃ s, (Seq2Seq.mk' env input_size rt hs n nl tfp).fwd past future tape
        k oid = Except.ok s ∧
      s.writes = List.replicate n oid ∧
      pastId ∉ s.writes ∧ futId ∉ s.writes := by
  obtain ⟨s, hrun, _, _, _, hw, _, _⟩ :=
    seq2seq_fwd_ok env input_size rt hs n nl tfp past future tape k oid hty
  refine ⟨s, hrun, hw, ?_, ?_⟩
  · simp [hw, List.mem_replicate, hp]
  · simp [hw, List.mem_replicate, hf]

/-- Witness for C10 at a concrete `"lstm"` configuration: input buffers
1 and 2, fresh output buffer 5. -/
theorem c10_no_input_buffer_writes_witness :
    ∃ s, (Seq2Seq.mk' trivEnv 1 "lstm" 1 2 1 none).fwd past5
        (some (Tensor3.zeros 1 2 1)) tape0 0 5 = Except.ok s ∧
      s.writes = List.replicate 2 5 ∧
      1 ∉ s.writes ∧ 2 ∉ s.writes :=
  c10_no_input_buffer_writes trivEnv 1 "lstm" 1 2 1 none past5
    (some (Tensor3.zeros 1 2 1)) tape0 0 5 1 2 (Or.inr (Or.inr rfl))
    (by decide) (by decide)

/-- C5: with `teacher_force_prob = 1.0`, a tape of uniform draws in
`[0,1)`, and `seed_inputs` at least `output_sequence_len` steps long,
every decoder step takes the forcing branch and sets the next
`current_input` to the (cloned) ground-truth slice of `seed_inputs` at
the current step index — a genuine single ground-truth step, as the
slice has length 1 — never to its own prediction. -/
theorem c5_prob_one_always_forces (d : Decoder) (inputs : Tensor3)
    (tape : Nat → ℚ) (oid t : Nat) (s : DecState) (m : RNNModule)
    (hm : d.rnn = some m) (hc : cellOK m s.cell)
    (hp : d.teacher_force_prob = some 1)
    (htape : ∀ i, 0 ≤ tape i ∧ tape i < 1)
    (hlen : d.output_sequence_len ≤ inputs.d1)
    (ht : t < d.output_sequence_len) :
    ∃ s', decStep d inputs tape oid t s = Except.ok s' ∧
      s'.forced = s.forced ++ [true] ∧
      s'.cur = (inputs.sliceT t).clone ∧
      (inputs.sliceT t).d1 = 1 := by
  obtain ⟨s', hok, _, _, hcur, _, _, hforced⟩ :=
    decStep_total d inputs tape oid t m hm s hc
  have hfd : (forceDecision d.teacher_force_prob tape s.k).1 = true := by
    simp only [hp, forceDecision, decide_eq_true_eq]
    exact (htape s.k).2
  refine ⟨s', hok, by rw [hforced, hfd], by rw [hcur, hfd]; simp, ?_⟩
  simp only [Tensor3.sliceT]
  omega

/-- Witness for C5: decoder `d5` (probability 1, two steps) over `past5`
(three time steps), at step index 1, with the zero tape. -/
theorem c5_prob_one_always_forces_witness :
    ∃ s', decStep d5 past5 tape0 9 1 sInit = Except.ok s' ∧
      s'.forced = [] ++ [true] ∧
      s'.cur = (past5.sliceT 1).clone ∧
      (past5.sliceT 1).d1 = 1 :=
  c5_prob_one_always_forces d5 past5 tape0 9 1 sInit
    (RNNModule.rnn (trivEnv.mkRNN 1 1 1)) rfl trivial rfl
    (fun _ => ⟨le_refl 0, by norm_num [tape0]⟩) (by decide) (by decide)

/-- C6: with `teacher_force_prob` absent or equal to `0.0` (and uniform
draws that are never negative), every decoder step leaves the forcing
branch untaken and sets the next `current_input` to the just-produced
one-step prediction — the same tensor that was recorded into the output
buffer at this step — never to a ground-truth slice of `seed_inputs`. -/
theorem c6_no_prob_never_forces (d : Decoder) (inputs : Tensor3)
    (tape : Nat → ℚ) (oid t : Nat) (s : DecState) (m : RNNModule)
    (hm : d.rnn = some m) (hc : cellOK m s.cell)
    (hp : d.teacher_force_prob = none ∨ d.teacher_force_prob = some 0)
    (htape : ∀ i, 0 ≤ tape i) :
    ∃ s', decStep d inputs tape oid t s = Except.ok s' ∧
      s'.forced = s.forced ++ [false] ∧
      s'.cur = (d.fc.app s'.hidden.lastAxis0).permute102 ∧
      s'.outs = s.outs.setT t s'.cur := by
  obtain ⟨s', hok, _, houts, hcur, _, _, hforced⟩ :=
    decStep_total d inputs tape oid t m hm s hc
  have hfd : (forceDecision d.teacher_force_prob tape s.k).1 = false := by
    rcases hp with hp | hp
    · simp [hp, forceDecision]
    · simp only [hp, forceDecision, decide_eq_false_iff_not, not_lt]
      exact htape s.k
  have hcur' : s'.cur = (d.fc.app s'.hidden.lastAxis0).permute102 := by
    rw [hcur, hfd]; simp
  exact ⟨s', hok, by rw [hforced, hfd], hcur', by rw [houts, hcur']⟩

/-- Witness for C6: decoder `d6` (no probability configured) over
`past5`, at step index 0, with the zero tape. -/
theorem c6_no_prob_never_forces_witness :
    ∃ s', decStep d6 past5 tape0 9 0 sInit = Except.ok s' ∧
      s'.forced = [] ++ [false] ∧
      s'.cur = (d6.fc.app s'.hidden.lastAxis0).permute102 ∧
      s'.outs = sInit.outs.setT 0 s'.cur :=
  c6_no_prob_never_forces d6 past5 tape0 9 0 sInit
    (RNNModule.gru (trivEnv.mkGRU 1 1 1)) rfl trivial (Or.inl rfl)
    (fun _ => le_refl 0)

end Seq2SeqModel
